import Mathlib

/-!
Verification of the squatch.cc trust-escalation engine (`vector-sw.js`,
the service worker) against its natural-language specification.

The service worker is shallowly embedded below.  JavaScript numbers are
modelled by `ℚ` (all constants in the source are exact decimals);
`Math.sqrt` is modelled by the rational square-root approximation
`Rat.sqrt`; `Math.min` by `min`; `Date.now()` by an explicit `now`
parameter threaded through the handlers.  The SHA-256 vector digest and
the 32-bit display hash of the first eight vector entries are display-only
summaries: they are modelled by retaining the hashed data itself (an
injective stand-in), which no claim inspects beyond presence.  The
`postMessage` calls of each handler are returned as an explicit list of
outbound messages.
-/

namespace VectorSW

/-- One record of `state.attestations`.  The JavaScript objects pushed into
the array vary in shape (the fingerprint record carries `organic` and
`vector_hash` but no `boost`; verifier records carry `boost` and sometimes
`details` or `nonce`), hence the optional fields. -/
structure Attestation where
  kind : String
  timestamp : Nat
  boost : Option ℚ := none
  organicAt : Option ℚ := none
  vectorHash : Option (List ℚ) := none
  details : Option (Nat × Nat × Nat) := none
  nonce : Option Nat := none
deriving Repr, DecidableEq

/-- The mutable `state` object of vector-sw.js.  `signals` is stored but
never read by any operation and is omitted; of `cssSignals` only the
`mediaCount` field is ever read, so it is stored directly. -/
structure TrustState where
  vector : Option (List ℚ)
  organic : ℚ
  stage : Nat
  attestations : List Attestation
  unlocked : List String
  cssMediaCount : Nat
  cssGatesCompleted : List String
  initialized : Bool
deriving Repr, DecidableEq

/-- The initial value of `state`. -/
def initialState : TrustState :=
  { vector := none, organic := 0, stage := 0, attestations := [],
    unlocked := [], cssMediaCount := 0, cssGatesCompleted := [],
    initialized := false }

/-- One entry of the `STAGES` ladder. -/
structure StageDefinition where
  id : String
  threshold : ℚ
  unlock : List String
deriving Repr, DecidableEq

/-- The `STAGES` configuration. -/
def STAGES : List StageDefinition :=
  [ { id := "fingerprint", threshold := 0.3, unlock := ["basic-ui"] },
    { id := "behavioral",  threshold := 0.5, unlock := ["search", "content"] },
    { id := "pow",         threshold := 0.6, unlock := ["write", "storage"] },
    { id := "email",       threshold := 0.7, unlock := ["identity", "sync"] },
    { id := "passkey",     threshold := 0.9, unlock := ["full-access", "admin"] },
    { id := "attestation", threshold := 1.0, unlock := ["everything"] } ]

/-- `STAGES[i].threshold` (defaulting outside the range, which the source
loop never reaches). -/
def thresholdAt (i : Nat) : ℚ :=
  ((STAGES.get? i).map (·.threshold)).getD 0

/-- The loop test `state.organic >= STAGES[i].threshold`. -/
def qualifies (organic : ℚ) (i : Nat) : Bool :=
  thresholdAt i ≤ organic

/-- The downward search of `updateStage`: the first (largest) index `i`
from `STAGES.length - 1` down to `0` whose threshold `organic` meets. -/
def findStageIdx (organic : ℚ) : Option Nat :=
  ((List.range STAGES.length).reverse).find? (qualifies organic)

/-- The unlock tokens of stages `0 .. i` inclusive, in push order
(`for j = 0..i: for unlock of STAGES[j].unlock`). -/
def cumulativeUnlocks (i : Nat) : List String :=
  ((STAGES.take (i + 1)).map (·.unlock)).flatten

/-- Push each capability not already present, preserving order
(`if (!state.unlocked.includes(unlock)) state.unlocked.push(unlock)`). -/
def pushNew (unlocked : List String) (caps : List String) : List String :=
  caps.foldl (fun acc u => if u ∈ acc then acc else acc ++ [u]) unlocked

/-- `updateStage()`: find the highest qualifying stage; if one exists, set
`stage` and merge its cumulative unlocks into `unlocked`; otherwise the
loop falls through and the state is untouched. -/
def updateStage (s : TrustState) : TrustState :=
  match findStageIdx s.organic with
  | some i => { s with stage := i, unlocked := pushNew s.unlocked (cumulativeUnlocks i) }
  | none => s

/-- `getNewUnlocks()`: the cumulative expected unlocks of stages
`0 .. state.stage`, minus those already in `state.unlocked`. -/
def getNewUnlocks (s : TrustState) : List String :=
  (cumulativeUnlocks s.stage).filter (fun u => u ∉ s.unlocked)

/-- The object returned by `getPublicState()`.  `fingerprint` holds the
first eight vector entries, standing in for their display hash. -/
structure PublicState where
  organic : ℚ
  stage : Nat
  stageName : String
  unlocked : List String
  attestationCount : Nat
  cssGatesCompleted : List String
  cssMediaCount : Nat
  fingerprint : Option (List ℚ)
deriving Repr, DecidableEq

/-- `getPublicState()`. -/
def getPublicState (s : TrustState) : PublicState :=
  { organic := s.organic
    stage := s.stage
    stageName := ((STAGES.get? s.stage).map (·.id)).getD "none"
    unlocked := s.unlocked
    attestationCount := s.attestations.length
    cssGatesCompleted := s.cssGatesCompleted
    cssMediaCount := s.cssMediaCount
    fingerprint := s.vector.map (·.take 8) }

/-- `RESOURCE_GATES`: resource name → required capability, `none` being the
`null` always-allowed sentinel. -/
def RESOURCE_GATES : List (String × Option String) :=
  [ ("gate.js", none),
    ("vector-gate.js", none),
    ("vector-gate.wasm.js", none),
    ("vector-sw.js", none),
    ("app.js", some "basic-ui"),
    ("styles.css", some "basic-ui"),
    ("search.js", some "search"),
    ("content.js", some "content"),
    ("editor.js", some "write"),
    ("storage.js", some "storage"),
    ("identity.js", some "identity"),
    ("sync.js", some "sync"),
    ("admin.js", some "admin"),
    ("full.js", some "full-access") ]

/-- `RESOURCE_GATES[resource]`: `none` models the JavaScript `undefined`
(no entry); `some none` models an explicit `null` entry. -/
def gateLookup (resource : String) : Option (Option String) :=
  (RESOURCE_GATES.find? (fun e => e.1 == resource)).map (·.2)

/-- Outcome of the `fetch` listener. -/
inductive GateDecision
  | passThrough
  | allow
  | deny (status : Nat) (body : Option String)
deriving Repr, DecidableEq

/-- The `fetch` listener.  Cross-origin requests are not intercepted.
`requiredUnlock === null || requiredUnlock === undefined` both allow.  A
denial is `new Response(null, | status: 204 |)`. -/
def fetchGate (sameOrigin : Bool) (resource : String) (s : TrustState) : GateDecision :=
  if !sameOrigin then .passThrough
  else
    match gateLookup resource with
    | none => .allow
    | some none => .allow
    | some (some requiredUnlock) =>
      if requiredUnlock ∉ s.unlocked ∧ requiredUnlock ≠ "basic-ui" then .deny 204 none
      else if requiredUnlock = "basic-ui" ∧ ¬ s.initialized then .deny 204 none
      else .allow

/-- Outbound `postMessage` payloads of the service worker. -/
inductive OutMsg
  | loadStage (module : String) (container : String) (st : PublicState)
  | challenge (ctype : String) (duration : Nat)
  | unlock (features : List String) (organic : ℚ) (stage : Nat) (cssGate : Option String)
  | state (st : PublicState)
deriving Repr, DecidableEq

/-- `variance(values)`. -/
def variance (values : List ℚ) : ℚ :=
  if values.length = 0 then 0
  else
    let mean := values.sum / (values.length : ℚ)
    (values.map (fun v => (v - mean) ^ 2)).sum / (values.length : ℚ)

/-- A time-stamped pointer sample `{x, y, t}`. -/
structure MouseSample where
  x : ℚ
  y : ℚ
  t : ℚ
deriving Repr, DecidableEq

/-- `attestBehavioral(result)`.  Always returns an attestation record (its
boost may be `0`); `Math.sqrt` is modelled by `Rat.sqrt`.  Scroll events
carry only their `y` coordinate (the only field read); key presses only
their count. -/
def attestBehavioral (now : Nat) (mouseMovements : List MouseSample)
    (scrollEvents : List ℚ) (keyPresses : Nat) : Attestation :=
  let score₁ : ℚ :=
    if 5 < mouseMovements.length then
      let deltas := (mouseMovements.zip mouseMovements.tail).map
        (fun pq => (pq.2.x - pq.1.x, pq.2.y - pq.1.y, pq.2.t - pq.1.t))
      let speeds := deltas.map
        (fun d => Rat.sqrt (d.1 * d.1 + d.2.1 * d.2.1) / max 1 d.2.2)
      if 0.1 < variance speeds then 0.05 else 0
    else 0
  let score₂ : ℚ :=
    if 2 < scrollEvents.length then
      let scrollDeltas := (scrollEvents.zip scrollEvents.tail).map
        (fun ab => ab.2 - ab.1)
      if 100 < variance scrollDeltas then 0.03 else 0
    else 0
  let score₃ : ℚ :=
    if 0 < mouseMovements.length ∨ 0 < scrollEvents.length ∨ 0 < keyPresses
    then 0.02 else 0
  { kind := "behavioral", timestamp := now,
    boost := some (score₁ + score₂ + score₃),
    details := some (mouseMovements.length, scrollEvents.length, keyPresses) }

/-- `attestPoW(result)`: `hash` and `nonce` must be truthy and the hash
must start with `difficulty` zero characters. -/
def attestPoW (now : Nat) (hash : Option String) (nonce : Option Nat) :
    Option Attestation :=
  match hash, nonce with
  | some h, some n =>
    if h ≠ "" ∧ n ≠ 0 then
      let difficulty := 4
      if h.startsWith (String.mk (List.replicate difficulty '0')) then
        some { kind := "pow", timestamp := now, boost := some 0.1, nonce := some n }
      else none
    else none
  | _, _ => none

/-- `attestTiming(result)`. -/
def attestTiming (now : Nat) (result : List ℚ) : Option Attestation :=
  if result.length < 5 then none
  else
    let v := variance result
    let mean := result.sum / (result.length : ℚ)
    if v < 0.1 ∨ mean < 9 ∨ 15 < mean then none
    else some { kind := "timing", timestamp := now, boost := some 0.02 }

/-- A `challenge-response` payload, tagged by its `type` string.  Unknown
type strings leave `attestation` null in the source and are omitted (the
handler is then a no-op with no reply, like a rejected proof). -/
inductive ChallengePayload
  | behavioral (mouseMovements : List MouseSample) (scrollEvents : List ℚ) (keyPresses : Nat)
  | pow (hash : Option String) (nonce : Option Nat)
  | timing (result : List ℚ)
deriving Repr, DecidableEq

/-- The `switch (type)` of `handleChallengeResponse`. -/
def runVerifier (now : Nat) : ChallengePayload → Option Attestation
  | .behavioral m sc k => some (attestBehavioral now m sc k)
  | .pow h n => attestPoW now h n
  | .timing r => attestTiming now r

/-- `handleChallengeResponse(client, payload)`. -/
def handleChallengeResponse (s : TrustState) (now : Nat) (c : ChallengePayload) :
    TrustState × List OutMsg :=
  match runVerifier now c with
  | none => (s, [])
  | some attestation =>
    let s := { s with attestations := s.attestations ++ [attestation] }
    let s := { s with organic := min 1 (s.organic + attestation.boost.getD 0) }
    let s := updateStage s
    let newUnlocks := getNewUnlocks s
    (s, if 0 < newUnlocks.length
        then [OutMsg.unlock newUnlocks s.organic s.stage none] else [])

/-- An `attest` proof object; absent fields are `none`. -/
structure Proof where
  token : Option String := none
  email : Option String := none
  verified : Bool := false
  credential : Option String := none
  authenticatorData : Option String := none
deriving Repr, DecidableEq

/-- JavaScript truthiness of an optional string field. -/
def truthy : Option String → Bool
  | none => false
  | some str => str ≠ ""

/-- `verifyEmailProof(proof)`: `proof && proof.token && proof.email &&
proof.verified`. -/
def verifyEmailProof : Option Proof → Bool
  | none => false
  | some p => truthy p.token && truthy p.email && p.verified

/-- `verifyPasskeyProof(proof)`: `proof && proof.credential &&
proof.authenticatorData`. -/
def verifyPasskeyProof : Option Proof → Bool
  | none => false
  | some p => truthy p.credential && truthy p.authenticatorData

/-- `handleAttest(client, payload)`: the state update depends on the kind
and proof; the reply with the full public snapshot is unconditional. -/
def handleAttest (s : TrustState) (now : Nat) (kind : String) (proof : Option Proof) :
    TrustState × List OutMsg :=
  let s :=
    if kind = "email" then
      if verifyEmailProof proof then
        let s := { s with attestations := s.attestations ++
          [({ kind := "email", timestamp := now, boost := some 0.1 } : Attestation)] }
        let s := { s with organic := min 1 (s.organic + 0.1) }
        updateStage s
      else s
    else if kind = "passkey" then
      if verifyPasskeyProof proof then
        let s := { s with attestations := s.attestations ++
          [({ kind := "passkey", timestamp := now, boost := some 0.2 } : Attestation)] }
        let s := { s with organic := min 1 (s.organic + 0.2) }
        updateStage s
      else s
    else s
  (s, [OutMsg.state (getPublicState s)])

/-- The `boosts` table of `handleCSSGateComplete`, with the `|| 0.01`
fallback for identifiers outside it. -/
def cssGateBoost (gate : String) : ℚ :=
  if gate = "hover" then 0.03
  else if gate = "click" then 0.03
  else if gate = "checkbox" then 0.02
  else if gate = "scroll" then 0.02
  else if gate = "focus" then 0.02
  else 0.01

/-- `handleCSSGateComplete(client, payload)`.  A `timestamp` of `0` is
falsy in JavaScript, so `timestamp || Date.now()` is modelled by the
`≠ 0` test.  The `unlock` reply is unconditional here. -/
def handleCSSGateComplete (s : TrustState) (now : Nat) (gate : String)
    (timestamp : Nat) : TrustState × List OutMsg :=
  if gate ∈ s.cssGatesCompleted then (s, [])
  else
    let s := { s with cssGatesCompleted := s.cssGatesCompleted ++ [gate] }
    let boost := cssGateBoost gate
    let s := { s with organic := min 1 (s.organic + boost) }
    let s := { s with attestations := s.attestations ++
      [{ kind := "css-" ++ gate,
         timestamp := if timestamp ≠ 0 then timestamp else now,
         boost := some boost }] }
    let s := updateStage s
    (s, [OutMsg.unlock (getNewUnlocks s) s.organic s.stage (some gate)])

/-- `handleInit(client, payload)`.  `cssSignals?.mediaCount` truthiness is
the `≠ 0` test; the `setTimeout` challenge request is emitted in the
outbound list after the `load-stage` instruction. -/
def handleInit (s : TrustState) (now : Nat) (vector : List ℚ) (organic : ℚ)
    (mediaCount : Nat) (timestamp : Nat) : TrustState × List OutMsg :=
  let s := { s with vector := some vector, organic := organic,
                    cssMediaCount := mediaCount, initialized := true }
  let s := if mediaCount ≠ 0
    then { s with organic := min 1 (s.organic + (mediaCount : ℚ) * 0.02) }
    else s
  let s := { s with attestations := s.attestations ++
    [{ kind := "fingerprint",
       timestamp := if timestamp ≠ 0 then timestamp else now,
       organicAt := some organic, vectorHash := some vector }] }
  let s := updateStage s
  (s, (if 0.3 ≤ s.organic
       then [OutMsg.loadStage "./app.js" "body" (getPublicState s)] else [])
      ++ (if 0.3 ≤ s.organic ∧ s.organic < 0.5
          then [OutMsg.challenge "behavioral" 5000] else []))

/-- The five inbound message kinds dispatched by the `message` listener. -/
inductive Msg
  | init (vector : List ℚ) (organic : ℚ) (mediaCount : Nat) (timestamp : Nat)
  | challengeResponse (c : ChallengePayload)
  | attest (kind : String) (proof : Option Proof)
  | cssGateComplete (gate : String) (timestamp : Nat)
  | getState
deriving Repr, DecidableEq

/-- The `message` listener: dispatch one inbound message. -/
def step (now : Nat) (s : TrustState) : Msg → TrustState × List OutMsg
  | .init v o mc ts => handleInit s now v o mc ts
  | .challengeResponse c => handleChallengeResponse s now c
  | .attest k p => handleAttest s now k p
  | .cssGateComplete g ts => handleCSSGateComplete s now g ts
  | .getState => (s, [OutMsg.state (getPublicState s)])

/-- Process a sequence of inbound messages, threading the state. -/
def runMsgs (now : Nat) : TrustState → List Msg → TrustState
  | s, [] => s
  | s, m :: ms => runMsgs now (step now s m).1 ms

/-- The spec invariant `0 ≤ organic ≤ 1`. -/
def organicOK (s : TrustState) : Prop :=
  0 ≤ s.organic ∧ s.organic ≤ 1

/-- The inbound contract of §6: an `init` payload carries an organic
estimate in `[0, 1]`; the other message kinds are unconstrained. -/
def initEstimateOK : Msg → Prop
  | .init _ o _ _ => 0 ≤ o ∧ o ≤ 1
  | _ => True

/-- Spec-side reading of the `stage` invariant: `i` is the highest ladder
index whose threshold `organic` meets. -/
def IsHighestQualifying (o : ℚ) (i : Nat) : Prop :=
  i < STAGES.length ∧ thresholdAt i ≤ o ∧
    ∀ j, j < STAGES.length → thresholdAt j ≤ o → j ≤ i

/-! ### Basic lemmas about `updateStage` and its helpers -/

theorem updateStage_organic (s : TrustState) : (updateStage s).organic = s.organic := by
  unfold updateStage
  cases findStageIdx s.organic <;> rfl

theorem updateStage_attestations (s : TrustState) :
    (updateStage s).attestations = s.attestations := by
  unfold updateStage
  cases findStageIdx s.organic <;> rfl

theorem updateStage_cssGatesCompleted (s : TrustState) :
    (updateStage s).cssGatesCompleted = s.cssGatesCompleted := by
  unfold updateStage
  cases findStageIdx s.organic <;> rfl

theorem updateStage_initialized (s : TrustState) :
    (updateStage s).initialized = s.initialized := by
  unfold updateStage
  cases findStageIdx s.organic <;> rfl

theorem mem_pushNew (u : String) (caps : List String) :
    ∀ l : List String, u ∈ l → u ∈ pushNew l caps := by
  induction caps with
  | nil => intro l h; exact h
  | cons c cs ih =>
    intro l h
    show u ∈ List.foldl _ (if c ∈ l then l else l ++ [c]) cs
    by_cases hc : c ∈ l
    · rw [if_pos hc]; exact ih l h
    · rw [if_neg hc]; exact ih (l ++ [c]) (List.mem_append_left _ h)

theorem updateStage_unlocked_mono (s : TrustState) (u : String)
    (h : u ∈ s.unlocked) : u ∈ (updateStage s).unlocked := by
  unfold updateStage
  cases findStageIdx s.organic with
  | none => exact h
  | some i => exact mem_pushNew u (cumulativeUnlocks i) s.unlocked h

/-! ### Arithmetic helper lemmas for the clamped boost -/

theorem min_one_nonneg {o b : ℚ} (h0 : 0 ≤ o) (hb : 0 ≤ b) :
    0 ≤ min 1 (o + b) :=
  le_min (by norm_num) (by linarith)

theorem min_one_le_one (o : ℚ) : min 1 o ≤ 1 := min_le_left _ _

theorem le_min_one {o b : ℚ} (h1 : o ≤ 1) (hb : 0 ≤ b) :
    o ≤ min 1 (o + b) :=
  le_min h1 (by linarith)

/-! ### Verifier boosts are never negative -/

theorem attestBehavioral_boost_nonneg (now : Nat) (m : List MouseSample)
    (sc : List ℚ) (k : Nat) :
    0 ≤ (attestBehavioral now m sc k).boost.getD 0 := by
  unfold attestBehavioral
  dsimp only [Option.getD]
  split_ifs <;> norm_num

theorem runVerifier_boost_nonneg (now : Nat) (c : ChallengePayload)
    (a : Attestation) (h : runVerifier now c = some a) :
    0 ≤ a.boost.getD 0 := by
  cases c with
  | behavioral m sc k =>
    simp only [runVerifier, Option.some.injEq] at h
    subst h
    exact attestBehavioral_boost_nonneg now m sc k
  | pow hash nonce =>
    simp only [runVerifier, attestPoW] at h
    rcases hash with _ | h₀ <;> rcases nonce with _ | n₀ <;> simp_all
    obtain ⟨-, -, rfl⟩ := h
    norm_num
  | timing r =>
    simp only [runVerifier, attestTiming] at h
    split_ifs at h
    rw [← Option.some.inj h]
    norm_num

theorem cssGateBoost_pos (g : String) : 0 < cssGateBoost g := by
  unfold cssGateBoost
  split_ifs <;> norm_num

/-! ### First hit of a downward search over `List.range n` -/

theorem find_reverse_range (p : Nat → Bool) (n i : Nat) (hi : i < n)
    (hp : p i = true) (hmax : ∀ j, i < j → j < n → p j = false) :
    ((List.range n).reverse).find? p = some i := by
  induction n with
  | zero => omega
  | succ n ih =>
    rw [List.range_succ, List.reverse_append]
    simp only [List.reverse_singleton, List.singleton_append]
    by_cases h : i = n
    · subst h
      exact List.find?_cons_of_pos _ hp
    · have hn : p n = false := hmax n (by omega) (by omega)
      rw [List.find?_cons_of_neg _ (by simp [hn])]
      exact ih (by omega) (fun j h₁ h₂ => hmax j h₁ (by omega))

theorem find_reverse_range_none (p : Nat → Bool) (n : Nat)
    (h : ∀ j, j < n → p j = false) :
    ((List.range n).reverse).find? p = none := by
  rw [List.find?_eq_none]
  intro x hx
  rw [List.mem_reverse, List.mem_range] at hx
  simp [h x hx]

/-! ### How each handler changes `organic` -/

theorem handleInit_organic (s : TrustState) (now : Nat) (v : List ℚ) (o : ℚ)
    (mc ts : Nat) :
    (handleInit s now v o mc ts).1.organic
      = if mc ≠ 0 then min 1 (o + (mc : ℚ) * 0.02) else o := by
  simp only [handleInit]
  split_ifs with h <;> simp [updateStage_organic, h]

theorem handleChallengeResponse_organic (s : TrustState) (now : Nat)
    (c : ChallengePayload) :
    (handleChallengeResponse s now c).1.organic = s.organic ∨
    ∃ a, runVerifier now c = some a ∧
      (handleChallengeResponse s now c).1.organic
        = min 1 (s.organic + a.boost.getD 0) := by
  rcases h : runVerifier now c with _ | a
  · left; simp [handleChallengeResponse, h]
  · right
    exact ⟨a, rfl, by simp [handleChallengeResponse, h, updateStage_organic]⟩

theorem handleAttest_organic (s : TrustState) (now : Nat) (k : String)
    (p : Option Proof) :
    (handleAttest s now k p).1.organic = s.organic ∨
    (handleAttest s now k p).1.organic = min 1 (s.organic + 0.1) ∨
    (handleAttest s now k p).1.organic = min 1 (s.organic + 0.2) := by
  simp only [handleAttest]
  split_ifs <;> simp [updateStage_organic]

theorem handleCSSGateComplete_organic (s : TrustState) (now : Nat)
    (g : String) (ts : Nat) :
    (handleCSSGateComplete s now g ts).1.organic = s.organic ∨
    (handleCSSGateComplete s now g ts).1.organic
      = min 1 (s.organic + cssGateBoost g) := by
  by_cases h : g ∈ s.cssGatesCompleted
  · left; simp [handleCSSGateComplete, h]
  · right; simp [handleCSSGateComplete, h, updateStage_organic]

/-! ### The organic score stays in bounds and, except through `init`,
never decreases -/

theorem step_organicOK (now : Nat) (s : TrustState) (m : Msg)
    (hs : organicOK s) (hm : initEstimateOK m) :
    organicOK (step now s m).1 := by
  obtain ⟨hs0, hs1⟩ := hs
  cases m with
  | init v o mc ts =>
    obtain ⟨h0, h1⟩ := hm
    constructor <;> rw [step, handleInit_organic] <;> split_ifs with h
    · exact min_one_nonneg h0 (by positivity)
    · exact h0
    · exact min_one_le_one _
    · exact h1
  | challengeResponse c =>
    rcases handleChallengeResponse_organic s now c with h | ⟨a, ha, h⟩ <;>
      constructor <;> rw [step, h]
    · exact hs0
    · exact hs1
    · exact min_one_nonneg hs0 (runVerifier_boost_nonneg now c a ha)
    · exact min_one_le_one _
  | attest k p =>
    rcases handleAttest_organic s now k p with h | h | h <;>
      constructor <;> rw [step, h]
    · exact hs0
    · exact hs1
    · exact min_one_nonneg hs0 (by norm_num)
    · exact min_one_le_one _
    · exact min_one_nonneg hs0 (by norm_num)
    · exact min_one_le_one _
  | cssGateComplete g ts =>
    rcases handleCSSGateComplete_organic s now g ts with h | h <;>
      constructor <;> rw [step, h]
    · exact hs0
    · exact hs1
    · exact min_one_nonneg hs0 (le_of_lt (cssGateBoost_pos g))
    · exact min_one_le_one _
  | getState => exact ⟨hs0, hs1⟩

theorem step_organic_mono (now : Nat) (s : TrustState) (m : Msg)
    (h1 : s.organic ≤ 1) (hm : ∀ v o mc ts, m ≠ Msg.init v o mc ts) :
    s.organic ≤ (step now s m).1.organic := by
  cases m with
  | init v o mc ts => exact absurd rfl (hm v o mc ts)
  | challengeResponse c =>
    rcases handleChallengeResponse_organic s now c with h | ⟨a, ha, h⟩ <;>
      rw [step, h]
    exact le_min_one h1 (runVerifier_boost_nonneg now c a ha)
  | attest k p =>
    rcases handleAttest_organic s now k p with h | h | h <;> rw [step, h]
    · exact le_min_one h1 (by norm_num)
    · exact le_min_one h1 (by norm_num)
  | cssGateComplete g ts =>
    rcases handleCSSGateComplete_organic s now g ts with h | h <;> rw [step, h]
    exact le_min_one h1 (le_of_lt (cssGateBoost_pos g))
  | getState => exact le_refl _

/-! ### The unlocked set only grows -/

theorem step_unlocked_mono (now : Nat) (s : TrustState) (m : Msg) (u : String)
    (h : u ∈ s.unlocked) : u ∈ (step now s m).1.unlocked := by
  cases m with
  | init v o mc ts =>
    simp only [step, handleInit]
    split_ifs <;> exact updateStage_unlocked_mono _ u h
  | challengeResponse c =>
    rcases hv : runVerifier now c with _ | a <;>
      simp only [step, handleChallengeResponse, hv]
    · exact h
    · exact updateStage_unlocked_mono _ u h
  | attest k p =>
    simp only [step, handleAttest]
    split_ifs <;> first
      | exact h
      | exact updateStage_unlocked_mono _ u h
  | cssGateComplete g ts =>
    by_cases hg : g ∈ s.cssGatesCompleted <;>
      simp only [step, handleCSSGateComplete, hg, if_pos, if_neg,
        not_false_eq_true]
    · exact h
    · exact updateStage_unlocked_mono _ u h
  | getState => exact h

theorem runMsgs_unlocked_mono (now : Nat) (msgs : List Msg) :
    ∀ s u, u ∈ s.unlocked → u ∈ (runMsgs now s msgs).unlocked := by
  induction msgs with
  | nil => intro s u h; exact h
  | cons m ms ih =>
    intro s u h
    exact ih _ u (step_unlocked_mono now s m u h)

/-! ### The initialized flag is one-way -/

theorem step_initialized_mono (now : Nat) (s : TrustState) (m : Msg)
    (h : s.initialized = true) : (step now s m).1.initialized = true := by
  cases m with
  | init v o mc ts =>
    simp only [step, handleInit]
    split_ifs <;> simp [updateStage_initialized]
  | challengeResponse c =>
    rcases hv : runVerifier now c with _ | a <;>
      simp only [step, handleChallengeResponse, hv]
    · exact h
    · simpa [updateStage_initialized] using h
  | attest k p =>
    simp only [step, handleAttest]
    split_ifs <;> simp [updateStage_initialized, h]
  | cssGateComplete g ts =>
    by_cases hg : g ∈ s.cssGatesCompleted <;>
      simp only [step, handleCSSGateComplete, hg, if_pos, if_neg,
        not_false_eq_true]
    · exact h
    · simpa [updateStage_initialized] using h
  | getState => exact h

theorem handleInit_sets_initialized (s : TrustState) (now : Nat) (v : List ℚ)
    (o : ℚ) (mc ts : Nat) :
    (handleInit s now v o mc ts).1.initialized = true := by
  simp only [handleInit]
  split_ifs <;> simp [updateStage_initialized]

theorem handleInit_appends_attestation (s : TrustState) (now : Nat)
    (v : List ℚ) (o : ℚ) (mc ts : Nat) :
    (handleInit s now v o mc ts).1.attestations.length
      = s.attestations.length + 1 := by
  simp only [handleInit]
  split_ifs <;> simp [updateStage_attestations]

/-! ### Coarse-gate credit -/

theorem cssGate_noop_of_mem (s : TrustState) (now : Nat) (g : String)
    (ts : Nat) (h : g ∈ s.cssGatesCompleted) :
    handleCSSGateComplete s now g ts = (s, []) := by
  simp [handleCSSGateComplete, h]

theorem mem_cssGates_after (s : TrustState) (now : Nat) (g : String)
    (ts : Nat) : g ∈ (handleCSSGateComplete s now g ts).1.cssGatesCompleted := by
  by_cases h : g ∈ s.cssGatesCompleted
  · rw [cssGate_noop_of_mem s now g ts h]
    exact h
  · simp [handleCSSGateComplete, h, updateStage_cssGatesCompleted]

/-! ### Characterizing the downward stage search -/

theorem findStageIdx_eq_of_highest (o : ℚ) (i : Nat)
    (h : IsHighestQualifying o i) : findStageIdx o = some i := by
  obtain ⟨hlen, hq, hmax⟩ := h
  refine find_reverse_range _ _ _ hlen (decide_eq_true hq) ?_
  intro j hij hj
  apply decide_eq_false
  intro hle
  have := hmax j hj hle
  omega

theorem findStageIdx_eq_none (o : ℚ)
    (h : ∀ j, j < STAGES.length → ¬ thresholdAt j ≤ o) :
    findStageIdx o = none :=
  find_reverse_range_none _ _ (fun j hj => decide_eq_false (h j hj))

theorem updateStage_stage_eq (s : TrustState) (i : Nat)
    (h : IsHighestQualifying s.organic i) : (updateStage s).stage = i := by
  unfold updateStage
  rw [findStageIdx_eq_of_highest _ _ h]

theorem updateStage_noop (s : TrustState)
    (h : ∀ j, j < STAGES.length → ¬ thresholdAt j ≤ s.organic) :
    updateStage s = s := by
  unfold updateStage
  rw [findStageIdx_eq_none _ h]

/-! ### Claim theorems -/

/-- C1 (amended): for every message sequence whose `init` payloads carry
organic estimates within `[0, 1]`, the `organic` score stays within
`[0, 1]`; and every defined operation other than `init` never decreases
`organic`.  The unamended claim is refuted by `C1_counterexample`: a
second `init` overwrites `organic` from the payload and can lower it. -/
theorem C1_organic_bounded_and_nonInit_monotone :
    (∀ now msgs s, organicOK s → (∀ m ∈ msgs, initEstimateOK m) →
      organicOK (runMsgs now s msgs)) ∧
    (∀ now s m, s.organic ≤ 1 → (∀ v o mc ts, m ≠ Msg.init v o mc ts) →
      s.organic ≤ (step now s m).1.organic) := by
  constructor
  · intro now msgs
    induction msgs with
    | nil => intro s hs _; exact hs
    | cons m ms ih =>
      intro s hs hm
      exact ih _ (step_organicOK now s m hs (hm m (List.mem_cons_self m ms)))
        (fun x hx => hm x (List.mem_cons_of_mem m hx))
  · exact step_organic_mono

/-- C1 counterexample: after `init` with estimate `0.5`, a second `init`
with estimate `0.1` lowers `organic` — `handleInit` stores the payload
estimate without checking `initialized`. -/
theorem C1_counterexample :
    (runMsgs 1 initialState
        [Msg.init [] 0.5 0 1, Msg.init [] 0.1 0 1]).organic
      < (runMsgs 1 initialState [Msg.init [] 0.5 0 1]).organic := by
  norm_num [runMsgs, step, handleInit, updateStage, findStageIdx, qualifies,
    thresholdAt, STAGES, cumulativeUnlocks, pushNew, initialState, min_def,
    List.find?]

/-- C1 witness: the amended theorem applied to the empty-history state and
a `get-state` message, and to a coarse-gate message for monotonicity. -/
theorem C1_witness :
    (organicOK initialState ∧ (∀ m ∈ [Msg.getState], initEstimateOK m) ∧
      organicOK (runMsgs 0 initialState [Msg.getState])) ∧
    (initialState.organic ≤ 1 ∧
      initialState.organic
        ≤ (step 0 initialState (Msg.cssGateComplete "hover" 1)).1.organic) := by
  have hok : organicOK initialState := by norm_num [organicOK, initialState]
  have hmsgs : ∀ m ∈ [Msg.getState], initEstimateOK m := by
    intro m hm
    rw [List.mem_singleton] at hm
    subst hm
    trivial
  refine ⟨⟨hok, hmsgs, ?_⟩, ⟨by norm_num [initialState], ?_⟩⟩
  · exact C1_organic_bounded_and_nonInit_monotone.1 0 [Msg.getState]
      initialState hok hmsgs
  · exact C1_organic_bounded_and_nonInit_monotone.2 0 initialState
      (Msg.cssGateComplete "hover" 1) (by norm_num [initialState])
      (fun v o mc ts => by simp)

/-- C2 (confirmed): for same-origin requests, a sentinel-mapped resource is
always allowed; a "basic-ui"-mapped resource is allowed iff `initialized`,
regardless of `unlocked`; any other mapped capability is allowed iff it is
in `unlocked`; and every non-allowed same-origin decision is the empty
204 no-content response. -/
theorem C2_resource_gate_decision :
    (∀ s r, gateLookup r = some none →
      fetchGate true r s = GateDecision.allow) ∧
    (∀ s r, gateLookup r = some (some "basic-ui") →
      (fetchGate true r s = GateDecision.allow ↔ s.initialized = true)) ∧
    (∀ s r c, gateLookup r = some (some c) → c ≠ "basic-ui" →
      (fetchGate true r s = GateDecision.allow ↔ c ∈ s.unlocked)) ∧
    (∀ s r, fetchGate true r s ≠ GateDecision.allow →
      fetchGate true r s = GateDecision.deny 204 none) := by
  refine ⟨?_, ?_, ?_, ?_⟩
  · intro s r h
    simp [fetchGate, h]
  · intro s r h
    by_cases hi : s.initialized <;> simp [fetchGate, h, hi]
  · intro s r c h hc
    by_cases hu : c ∈ s.unlocked <;> simp [fetchGate, h, hu, hc]
  · intro s r h
    rcases hl : gateLookup r with _ | _ | c
    · exact absurd (by simp [fetchGate, hl]) h
    · exact absurd (by simp [fetchGate, hl]) h
    · revert h
      simp only [fetchGate, Bool.not_true, Bool.false_eq_true, if_false, hl]
      split_ifs <;> simp

/-- C2 witness: the gate decision theorem applied to concrete resources of
each policy class against the initial state. -/
theorem C2_witness :
    fetchGate true "gate.js" initialState = GateDecision.allow ∧
    (fetchGate true "app.js" initialState = GateDecision.allow
      ↔ initialState.initialized = true) ∧
    (fetchGate true "admin.js" initialState = GateDecision.allow
      ↔ "admin" ∈ initialState.unlocked) ∧
    fetchGate true "search.js" initialState = GateDecision.deny 204 none :=
  ⟨C2_resource_gate_decision.1 initialState "gate.js" (by decide),
   C2_resource_gate_decision.2.1 initialState "app.js" (by decide),
   C2_resource_gate_decision.2.2.1 initialState "admin.js" "admin"
     (by decide) (by decide),
   C2_resource_gate_decision.2.2.2 initialState "search.js" (by decide)⟩

/-- C3 (amended): `initialized` is a one-way transition — no message resets
it, and any `init` leaves it true — but a repeated `init` is NOT a no-op:
it always re-ingests the payload and appends another fingerprint
attestation (`C3_counterexample` refutes the no-op part of the claim). -/
theorem C3_initialized_oneWay_but_reingests :
    (∀ now s m, s.initialized = true → (step now s m).1.initialized = true) ∧
    (∀ now s v o mc ts,
      (handleInit s now v o mc ts).1.initialized = true) ∧
    (∀ now s v o mc ts,
      (handleInit s now v o mc ts).1.attestations.length
        = s.attestations.length + 1) :=
  ⟨step_initialized_mono,
   fun now s v o mc ts => handleInit_sets_initialized s now v o mc ts,
   fun now s v o mc ts => handleInit_appends_attestation s now v o mc ts⟩

/-- C3 counterexample: processing a second, identical `init` after the
state is initialized changes the state (another fingerprint attestation is
appended), so it is not a no-op. -/
theorem C3_counterexample :
    (step 2 (runMsgs 1 initialState [Msg.init [] 0.5 0 1])
        (Msg.init [] 0.5 0 2)).1
      ≠ runMsgs 1 initialState [Msg.init [] 0.5 0 1] := by
  norm_num [runMsgs, step, handleInit, updateStage, findStageIdx, qualifies,
    thresholdAt, STAGES, cumulativeUnlocks, pushNew, initialState, min_def,
    List.find?]

/-- C3 witness: the amended theorem applied to an initialized state and to
a concrete `init` of the empty-history state. -/
theorem C3_witness :
    ({ initialState with initialized := true } : TrustState).initialized
        = true ∧
    (step 0 { initialState with initialized := true }
        Msg.getState).1.initialized = true ∧
    (handleInit initialState 0 [] 0 0 0).1.initialized = true ∧
    (handleInit initialState 0 [] 0 0 0).1.attestations.length
      = initialState.attestations.length + 1 :=
  ⟨rfl,
   C3_initialized_oneWay_but_reingests.1 0
     { initialState with initialized := true } Msg.getState rfl,
   C3_initialized_oneWay_but_reingests.2.1 0 initialState [] 0 0 0,
   C3_initialized_oneWay_but_reingests.2.2 0 initialState [] 0 0 0⟩

/-- C4 (amended): after stage re-evaluation, if some ladder index
qualifies then `stage` is the highest index whose threshold `organic`
meets; if no index qualifies the evaluation leaves the state unchanged —
`stage` is never "unset", so (per `C4_counterexample`) it can keep
designating rung 0 while `organic` is below the lowest threshold. -/
theorem C4_stage_highest_qualifying :
    (∀ s i, IsHighestQualifying s.organic i → (updateStage s).stage = i) ∧
    (∀ s, (∀ j, j < STAGES.length → ¬ thresholdAt j ≤ s.organic) →
      updateStage s = s) :=
  ⟨updateStage_stage_eq, updateStage_noop⟩

/-- C4 counterexample: after `init` with estimate `0.1`, no ladder index
qualifies, yet `stage` still designates rung 0 (`stageName` reports
`fingerprint`, not `none`), refuting the "or is unset" part. -/
theorem C4_counterexample :
    (runMsgs 1 initialState [Msg.init [] 0.1 0 1]).stage = 0 ∧
    ¬ thresholdAt 0 ≤ (runMsgs 1 initialState [Msg.init [] 0.1 0 1]).organic ∧
    (getPublicState (runMsgs 1 initialState [Msg.init [] 0.1 0 1])).stageName
      = "fingerprint" := by
  norm_num [runMsgs, step, handleInit, updateStage, findStageIdx, qualifies,
    thresholdAt, STAGES, cumulativeUnlocks, pushNew, getPublicState,
    initialState, min_def, List.find?]

/-- C4 witness: the amended theorem applied at `organic = 0.75` (highest
qualifying index 3) and at the initial state (no index qualifies). -/
theorem C4_witness :
    IsHighestQualifying
        ({ initialState with organic := 0.75 } : TrustState).organic 3 ∧
    (updateStage { initialState with organic := 0.75 }).stage = 3 ∧
    (∀ j, j < STAGES.length → ¬ thresholdAt j ≤ initialState.organic) ∧
    updateStage initialState = initialState := by
  have h₁ : IsHighestQualifying
      ({ initialState with organic := 0.75 } : TrustState).organic 3 := by
    refine ⟨by norm_num [STAGES], by norm_num [thresholdAt, STAGES, initialState], ?_⟩
    intro j hj hle
    norm_num [STAGES] at hj
    interval_cases j <;>
      norm_num [thresholdAt, STAGES, initialState] at hle ⊢
  have h₂ : ∀ j, j < STAGES.length → ¬ thresholdAt j ≤ initialState.organic := by
    intro j hj
    norm_num [STAGES] at hj
    interval_cases j <;> norm_num [thresholdAt, STAGES, initialState]
  exact ⟨h₁, C4_stage_highest_qualifying.1 _ 3 h₁, h₂,
    C4_stage_highest_qualifying.2 initialState h₂⟩

/-- C5 (code bug witnessed): starting from the state after `init` with
estimate `0.48` (stage 0, only `basic-ui` merged), an accepted timing
challenge boosts `organic` to `0.5`, raises the stage to 1 and adds
`search` and `content` to `unlocked` — yet the handler emits no message at
all: `getNewUnlocks` is computed only after `updateStage` has already
merged the new capabilities into `unlocked`, so the diff is empty exactly
when something new unlocked. -/
theorem C5_no_unlock_notification_on_new_unlocks :
    (runMsgs 1 initialState [Msg.init [] 0.48 0 1]).unlocked
      = ["basic-ui"] ∧
    (runMsgs 1 initialState [Msg.init [] 0.48 0 1]).stage = 0 ∧
    (step 2 (runMsgs 1 initialState [Msg.init [] 0.48 0 1])
        (Msg.challengeResponse (.timing [9, 10, 11, 12, 13]))).1.unlocked
      = ["basic-ui", "search", "content"] ∧
    (step 2 (runMsgs 1 initialState [Msg.init [] 0.48 0 1])
        (Msg.challengeResponse (.timing [9, 10, 11, 12, 13]))).1.stage = 1 ∧
    (step 2 (runMsgs 1 initialState [Msg.init [] 0.48 0 1])
        (Msg.challengeResponse (.timing [9, 10, 11, 12, 13]))).2 = [] := by
  norm_num [runMsgs, step, handleInit, handleChallengeResponse, runVerifier,
    attestTiming, variance, updateStage, findStageIdx, qualifies, thresholdAt,
    STAGES, getNewUnlocks, cumulativeUnlocks, pushNew, initialState, min_def,
    List.find?]
  decide

/-- C6 (confirmed): a capability present in `unlocked` is still present
after processing any sequence of inbound messages — no operation or stage
recomputation ever removes one. -/
theorem C6_unlocked_monotone_over_sequences :
    ∀ now msgs s u, u ∈ s.unlocked → u ∈ (runMsgs now s msgs).unlocked :=
  fun now msgs s u h => runMsgs_unlocked_mono now msgs s u h

/-- C6 witness: `basic-ui` survives a coarse-gate message followed by a
state query. -/
theorem C6_witness :
    "basic-ui" ∈
      ({ initialState with unlocked := ["basic-ui"] } : TrustState).unlocked ∧
    "basic-ui" ∈ (runMsgs 3 { initialState with unlocked := ["basic-ui"] }
        [Msg.cssGateComplete "hover" 1, Msg.getState]).unlocked :=
  ⟨by decide,
   C6_unlocked_monotone_over_sequences 3
     [Msg.cssGateComplete "hover" 1, Msg.getState]
     { initialState with unlocked := ["basic-ui"] } "basic-ui" (by decide)⟩

/-- C7 (confirmed): submitting the same coarse-gate identifier a second
time is a complete no-op: the handler returns the state unchanged (so
`organic`, `attestations` and `cssGatesCompleted` are exactly as after the
first submission) and sends nothing. -/
theorem C7_coarse_gate_idempotent (s : TrustState) (g : String)
    (now₁ now₂ ts₁ ts₂ : Nat) :
    handleCSSGateComplete (handleCSSGateComplete s now₁ g ts₁).1 now₂ g ts₂
      = ((handleCSSGateComplete s now₁ g ts₁).1, []) :=
  cssGate_noop_of_mem _ now₂ g ts₂ (mem_cssGates_after s now₁ g ts₁)

/-- C8 (amended): every `attest` message produces exactly one reply
carrying the full public state snapshot, unconditionally; a
`challenge-response` replies only when the computed new-unlock diff
(`getNewUnlocks` of the post-state) is non-empty.  The unamended claim is
refuted by `C8_counterexample`: that diff being non-empty does not mean
something new unlocked — the handler can reply although `unlocked` did not
change. -/
theorem C8_attest_replies_unconditionally :
    (∀ s now k p, (handleAttest s now k p).2
      = [OutMsg.state (getPublicState (handleAttest s now k p).1)]) ∧
    (∀ s now c, (handleChallengeResponse s now c).2 ≠ [] →
      getNewUnlocks (handleChallengeResponse s now c).1 ≠ []) := by
  constructor
  · intro s now k p
    rfl
  · intro s now c
    rcases hv : runVerifier now c with _ | a <;>
      simp only [handleChallengeResponse, hv]
    · intro h
      exact absurd rfl h
    · split_ifs with hn
      · intro _
        exact List.ne_nil_of_length_pos hn
      · intro h
        exact absurd rfl h

/-- C8 counterexample: a behavioral challenge-response on the fresh state
sends a reply (an `unlock` message), although the `unlocked` set did not
change — refuting "replies only when something new unlocked". -/
theorem C8_counterexample :
    (step 1 initialState (Msg.challengeResponse (.behavioral [] [] 0))).2
      ≠ [] ∧
    (step 1 initialState
        (Msg.challengeResponse (.behavioral [] [] 0))).1.unlocked
      = initialState.unlocked := by
  norm_num [step, handleChallengeResponse, runVerifier, attestBehavioral,
    variance, updateStage, findStageIdx, qualifies, thresholdAt, STAGES,
    getNewUnlocks, cumulativeUnlocks, pushNew, initialState, min_def,
    List.find?]

/-- C8 witness: the amended theorem applied to a rejected email attest
(still replies with the snapshot) and to a replying challenge-response. -/
theorem C8_witness :
    (handleAttest initialState 3 "email" none).2
      = [OutMsg.state (getPublicState
          (handleAttest initialState 3 "email" none).1)] ∧
    (handleChallengeResponse initialState 1 (.behavioral [] [] 5)).2 ≠ [] ∧
    getNewUnlocks
        (handleChallengeResponse initialState 1 (.behavioral [] [] 5)).1
      ≠ [] := by
  have hne : (handleChallengeResponse initialState 1
      (.behavioral [] [] 5)).2 ≠ [] := by
    norm_num [handleChallengeResponse, runVerifier, attestBehavioral,
      variance, updateStage, findStageIdx, qualifies, thresholdAt, STAGES,
      getNewUnlocks, cumulativeUnlocks, pushNew, initialState, min_def,
      List.find?]
  exact ⟨C8_attest_replies_unconditionally.1 initialState 3 "email" none,
    hne, C8_attest_replies_unconditionally.2 initialState 1 _ hne⟩

/-- C9 (amended): there is no startup-time validation at all — a resource
with no policy entry is allowed (silently served) at request time exactly
like the always-permitted sentinel, refuting the claim
(`C9_counterexample`); the shipped ladder's thresholds do happen to be
strictly ascending, but nothing asserts it. -/
theorem C9_unmapped_resource_served :
    (∀ s r, gateLookup r = none → fetchGate true r s = GateDecision.allow) ∧
    List.Chain' (fun a b => a.threshold < b.threshold) STAGES := by
  constructor
  · intro s r h
    simp [fetchGate, h]
  · norm_num [STAGES, List.chain'_cons, List.chain'_singleton]

/-- C9 counterexample: a policy-unmapped resource is silently served at
request time (even in the fresh, fully locked state), not treated as a
startup-time fatal condition. -/
theorem C9_counterexample :
    fetchGate true "nonexistent.js" initialState = GateDecision.allow := by
  decide

/-- C9 witness: the amended theorem applied to a concrete unmapped
resource. -/
theorem C9_witness :
    gateLookup "unknown.js" = none ∧
    fetchGate true "unknown.js" initialState = GateDecision.allow :=
  ⟨by decide, C9_unmapped_resource_served.1 initialState "unknown.js" (by decide)⟩

/-- C10 (confirmed): a coarse-gate identifier outside the enumerated set,
not previously credited, still receives the default `0.01` boost, is added
to `cssGatesCompleted`, and an attestation is recorded — unknown
identifiers are not rejected. -/
theorem C10_unknown_gate_credited (s : TrustState) (g : String)
    (now ts : Nat)
    (h₁ : g ∉ ["hover", "click", "checkbox", "scroll", "focus"])
    (h₂ : g ∉ s.cssGatesCompleted) :
    (handleCSSGateComplete s now g ts).1.organic
      = min 1 (s.organic + 0.01) ∧
    g ∈ (handleCSSGateComplete s now g ts).1.cssGatesCompleted ∧
    (handleCSSGateComplete s now g ts).1.attestations
      = s.attestations ++
        [{ kind := "css-" ++ g, timestamp := if ts ≠ 0 then ts else now,
           boost := some 0.01 }] := by
  simp only [List.mem_cons, List.not_mem_nil, or_false, not_or] at h₁
  obtain ⟨n₁, n₂, n₃, n₄, n₅⟩ := h₁
  have hb : cssGateBoost g = 0.01 := by
    simp [cssGateBoost, n₁, n₂, n₃, n₄, n₅]
  refine ⟨?_, mem_cssGates_after s now g ts, ?_⟩
  · simp [handleCSSGateComplete, h₂, updateStage_organic, hb]
  · simp [handleCSSGateComplete, h₂, updateStage_attestations, hb]

/-- C10 witness: the theorem applied to the unknown identifier `wiggle`
against the fresh state. -/
theorem C10_witness :
    ("wiggle" : String) ∉ ["hover", "click", "checkbox", "scroll", "focus"] ∧
    "wiggle" ∉ initialState.cssGatesCompleted ∧
    (handleCSSGateComplete initialState 9 "wiggle" 5).1.organic
      = min 1 (initialState.organic + 0.01) ∧
    "wiggle" ∈
      (handleCSSGateComplete initialState 9 "wiggle" 5).1.cssGatesCompleted ∧
    (handleCSSGateComplete initialState 9 "wiggle" 5).1.attestations
      = initialState.attestations ++
        [{ kind := "css-" ++ "wiggle",
           timestamp := if (5 : Nat) ≠ 0 then 5 else 9,
           boost := some 0.01 }] := by
  have h := C10_unknown_gate_credited initialState "wiggle" 9 5
    (by decide) (by decide)
  exact ⟨by decide, by decide, h.1, h.2.1, h.2.2⟩

end VectorSW
